import Mathlib

/-!
Verification of the cart reservation / visit-confirmation / booking-window
state machine of the propbandhu real-estate marketplace.

The definitions below are a shallow embedding of the JavaScript source:

* `src/models/Commission.js` — `calculateCommission`;
* the cart schema (`src/models/Notification.js`, second document) —
  `isPropertyInCart`, `addItem`, `removeItem`, `confirmVisit`,
  `checkExpiredItems`;
* `src/controllers/buyerController.js` — `addToCart`, `removeFromCart`,
  `confirmVisit`;
* `src/controllers/brokerController.js` — `confirmVisit`;
* the broker router (`src/unnamed/part_001`) —
  `POST /api/visits/:propertyId/confirm`;
* `SimpleCleanupService.cleanupExpiredItems` (`src/unnamed/part_000`) —
  the hourly property-side expiry sweeper.

Dates are modelled as natural numbers counting epoch milliseconds and JS
numbers as rationals.  Database reads/writes become explicit state passing
on a `SysState` record holding one buyer's cart, one property and the
commission ledger; HTTP error responses and thrown errors become `Except`
values over the error inductive `Err`.  Fire-and-forget notifications are
modelled, where a claim needs them, as an explicit list of emitted events.
-/

namespace Propbandhu

/-- Milliseconds in one day (`24 * 60 * 60 * 1000` in the source). -/
def msPerDay : Nat := 24 * 60 * 60 * 1000

/-- Reservation (cart item) lifecycle status: the cart schema's
`items.status` enum. -/
inductive ItemStatus
  | active
  | expired
  | purchased
  | removed
  | completed
deriving DecidableEq

/-- Visit negotiation sub-state: the cart schema's `items.visit_status`
enum. -/
inductive VisitStatus
  | pending
  | scheduled
  | confirmed
  | completed
  | expired
  | cancelled
deriving DecidableEq

/-- Property approval status enum (`propertySchema.status`). -/
inductive ApprovalStatus
  | draft
  | pending_approval
  | approved
  | live
  | rejected
  | suspended
  | sold
  | rented
  | expired
deriving DecidableEq

/-- User role (`added_by.role` of a property). -/
inductive Role
  | seller
  | broker
  | buyer
  | admin
deriving DecidableEq

/-- One reservation item of a buyer's cart (cart schema `items`).  Fields
not touched by the reservation engine (scheduling details, notes, phone
number, confirmation method) are omitted. -/
structure CartItem where
  property : Nat
  added_at : Nat
  status : ItemStatus
  visit_status : VisitStatus
  visit_confirmed_at : Option Nat
  confirmed_by : Option Nat
  booking_window_start : Option Nat
  booking_window_end : Option Nat
deriving DecidableEq

/-- Per-cart settings snapshot (cart schema `settings`; defaults 5 / 7 /
60 in the schema and in the engine's rule fallbacks). -/
structure CartSettings where
  max_properties : Nat
  visit_window_days : Nat
  booking_window_days : Nat
deriving DecidableEq

/-- A buyer's cart aggregate. -/
structure Cart where
  buyer : Nat
  items : List CartItem
  settings : CartSettings
deriving DecidableEq

/-- The property's denormalized lock mirror (`propertySchema.cart_status`).
The nested `confirmed_by` subdocument is omitted (no claim depends on
it). -/
structure CartStatus where
  in_cart : Bool
  buyer_id : Option Nat
  added_at : Option Nat
  visit_confirmed : Bool
  visit_confirmed_at : Option Nat
  booking_window_start : Option Nat
  booking_window_end : Option Nat
deriving DecidableEq

/-- Who originally listed the property (`propertySchema.added_by`). -/
structure AddedBy where
  user : Nat
  role : Role
deriving DecidableEq

/-- A property record, restricted to the fields the reservation engine and
the commission ledger read or write.  `commission_adder_rate` and
`commission_seller_rate` embed `propertySchema.commission.adder_rate` /
`.seller_rate` (schema default `0`). -/
structure Property where
  id : Nat
  price : Rat
  status : ApprovalStatus
  seller : Nat
  broker : Option Nat
  added_by : AddedBy
  cart_status : CartStatus
  commission_adder_rate : Rat
  commission_seller_rate : Rat
deriving DecidableEq

/-- A commission ledger record at creation time (`Commission.create`
callers always pass `status: 'pending'`, so the status field is elided). -/
structure Commission where
  broker : Nat
  property : Nat
  property_price : Rat
  commission_type : String
  rate : Rat
  amount : Rat
deriving DecidableEq

/-- The distinct rejection outcomes of the reservation-engine endpoints
(each constructor corresponds to one distinct error response or thrown
message of the source). -/
inductive Err
  | propertyNotAvailable
  | capacityExceeded
  | duplicateReservation
  | itemNotFound
  | visitWindowExpired
  | visitAlreadyConfirmed
  | notAuthorized
  | invalidCommissionType
deriving DecidableEq

/-- Fire-and-forget notification events, restricted to the one event a
claim mentions (`property_unlock`, sent to the property's seller). -/
inductive Event
  | propertyUnlock (userId : Nat)
deriving DecidableEq

/-- The persisted state the embedded operations act on: one buyer's cart,
one property, and the commission ledger. -/
structure SysState where
  cart : Cart
  prop : Property
  commissions : List Commission
deriving DecidableEq

/-- JS `x || d` on a number `x`: `0` is falsy, so a zero rate falls back
to the default. -/
def jsOr (x d : Rat) : Rat :=
  if x = 0 then d else x

/-- JS `x?.value || d` for an optional rule lookup result. -/
def jsOrO (x : Option Rat) (d : Rat) : Rat :=
  match x with
  | some v => jsOr v d
  | none => d

/-- Result record of `Commission.calculateCommission`. -/
structure CommissionCalc where
  rate : Rat
  amount : Rat
deriving DecidableEq

/-- Shallow embedding of `commissionSchema.statics.calculateCommission`
(src/models/Commission.js lines 105-124): a switch on the commission type
choosing the rate, then `amount = propertyPrice * rate / 100`; any other
type throws `Invalid commission type`.  The JS default arguments are
`adderRate = 1.5`, `sellerRate = 2.5`; callers that rely on them pass the
values explicitly here. -/
def calculateCommission (propertyPrice : Rat) (commissionType : String)
    (adderRate sellerRate : Rat) : Except String CommissionCalc :=
  if commissionType = "adder" then
    Except.ok ⟨adderRate, propertyPrice * adderRate / 100⟩
  else if commissionType = "seller" then
    Except.ok ⟨sellerRate, propertyPrice * sellerRate / 100⟩
  else if commissionType = "adder_seller" then
    Except.ok ⟨adderRate + sellerRate, propertyPrice * (adderRate + sellerRate) / 100⟩
  else
    Except.error "Invalid commission type"

/-- Does this item hold the property `pid` with an `active` reservation?
This is the predicate every engine operation uses to locate a live
reservation (`item.property.toString() === propertyId && item.status ===
'active'`). -/
def isActiveFor (pid : Nat) (i : CartItem) : Bool :=
  decide (i.property = pid ∧ i.status = ItemStatus.active)

/-- Count of active reservation items for `pid` in a list of items. -/
def countActiveFor (pid : Nat) (items : List CartItem) : Nat :=
  (items.filter (isActiveFor pid)).length

/-- Count of active reservation items of a cart, irrespective of property
(`items.filter(item => item.status === 'active').length`). -/
def activeCount (items : List CartItem) : Nat :=
  (items.filter (fun i => decide (i.status = ItemStatus.active))).length

/-- Apply `f` to the first active item for `pid` (the JS
`items.find(...)` / in-place mutation / `save` pattern), returning the
matched item as it was before the update together with the updated list;
`none` when no active item matches. -/
def updateFirstActive (pid : Nat) (f : CartItem → CartItem) :
    List CartItem → Option (CartItem × List CartItem)
  | [] => none
  | i :: rest =>
    if isActiveFor pid i then
      some (i, f i :: rest)
    else
      match updateFirstActive pid f rest with
      | none => none
      | some (j, rest') => some (j, i :: rest')

/-- Remove the first active item for `pid` from the list (the JS
`findIndex` + `splice` pattern of `removeFromCart`), returning the removed
item and the remaining list. -/
def extractFirstActive (pid : Nat) :
    List CartItem → Option (CartItem × List CartItem)
  | [] => none
  | i :: rest =>
    if isActiveFor pid i then
      some (i, rest)
    else
      match extractFirstActive pid rest with
      | none => none
      | some (j, rest') => some (j, i :: rest')

/-- Shallow embedding of `cartSchema.methods.isPropertyInCart`
(src/models/Notification.js lines 209-214). -/
def Cart.isPropertyInCart (c : Cart) (pid : Nat) : Bool :=
  c.items.any (isActiveFor pid)

/-- Shallow embedding of `cartSchema.methods.addItem`
(src/models/Notification.js lines 217-235): duplicate check, then the
capacity check `activeItems.length >= settings.max_properties`, then a
push of a fresh `active`/`pending` item (this method, unlike the buyer
controller, sets no booking window).  Errors are raised before any
mutation, so the returned cart equals the input on every error. -/
def Cart.addItem (c : Cart) (pid now : Nat) : Cart × Except Err Unit :=
  if c.isPropertyInCart pid then
    (c, Except.error Err.duplicateReservation)
  else if c.settings.max_properties ≤ activeCount c.items then
    (c, Except.error Err.capacityExceeded)
  else
    ({ c with items := c.items ++
        [{ property := pid, added_at := now, status := ItemStatus.active,
           visit_status := VisitStatus.pending, visit_confirmed_at := none,
           confirmed_by := none, booking_window_start := none,
           booking_window_end := none }] },
     Except.ok ())

/-- Shallow embedding of `cartSchema.methods.removeItem`
(src/models/Notification.js lines 238-250): the first active item for the
property gets `status = 'removed'`; if none matches the method throws
`Property not found in cart`. -/
def Cart.removeItem (c : Cart) (pid : Nat) : Cart × Except Err Unit :=
  match updateFirstActive pid (fun i => { i with status := ItemStatus.removed }) c.items with
  | none => (c, Except.error Err.itemNotFound)
  | some (_, items') => ({ c with items := items' }, Except.ok ())

/-- Field update applied to the matched item by
`cartSchema.methods.confirmVisit` on success (src/models/Notification.js
lines 314-320): confirmation fields plus a booking window computed at
confirmation time. -/
def confirmUpdModel (confirmedBy now bookingWindowDays : Nat) (i : CartItem) : CartItem :=
  { i with visit_status := VisitStatus.confirmed,
           visit_confirmed_at := some now,
           confirmed_by := some confirmedBy,
           booking_window_start := some now,
           booking_window_end := some (now + bookingWindowDays * msPerDay) }

/-- Field update applied to the matched item when the visit window has
elapsed (src/models/Notification.js lines 307-311): mark both the visit
and the item expired. -/
def expireUpd (i : CartItem) : CartItem :=
  { i with visit_status := VisitStatus.expired, status := ItemStatus.expired }

/-- Shallow embedding of `cartSchema.methods.confirmVisit`
(src/models/Notification.js lines 288-323).  Flow: locate the first
active item for the property (else throw); throw if the visit is already
confirmed; if `now` is past `added_at + visit_window_days`, mark the item
expired, *save*, and throw `Visit window has expired` (a state change on
an error path); otherwise apply `confirmUpdModel` and save.  The
`confirmation_method` string is omitted. -/
def Cart.confirmVisitModel (c : Cart) (pid confirmedBy now : Nat) :
    Cart × Except Err Unit :=
  match updateFirstActive pid (fun i => i) c.items with
  | none => (c, Except.error Err.itemNotFound)
  | some (item, _) =>
    if item.visit_status = VisitStatus.confirmed then
      (c, Except.error Err.visitAlreadyConfirmed)
    else if item.added_at + c.settings.visit_window_days * msPerDay < now then
      match updateFirstActive pid expireUpd c.items with
      | none => (c, Except.error Err.itemNotFound)
      | some (_, items') =>
        ({ c with items := items' }, Except.error Err.visitWindowExpired)
    else
      match updateFirstActive pid
          (confirmUpdModel confirmedBy now c.settings.booking_window_days) c.items with
      | none => (c, Except.error Err.itemNotFound)
      | some (_, items') => ({ c with items := items' }, Except.ok ())

/-- JS truthiness-plus-comparison on an optional date: the date exists and
lies strictly before `now` (`item.booking_window_end && now >
item.booking_window_end`; likewise the Mongo `$lt` filters). -/
def isPast (d : Option Nat) (now : Nat) : Bool :=
  match d with
  | some x => decide (x < now)
  | none => false

/-- Per-item transition of `cartSchema.methods.checkExpiredItems`
(src/models/Notification.js lines 331-348): a still-`pending` active item
past the visit window becomes `expired`/`expired`; a `confirmed` active
item past its `booking_window_end` gets `status = 'expired'`.  The JS
guard `now - addedTime > visitWindowMs` is `added_at + visitWindowMs <
now` over the integers. -/
def expireOne (visitWindowMs now : Nat) (i : CartItem) : CartItem :=
  if i.status = ItemStatus.active ∧ i.visit_status = VisitStatus.pending ∧
      i.added_at + visitWindowMs < now then
    { i with visit_status := VisitStatus.expired, status := ItemStatus.expired }
  else if i.status = ItemStatus.active ∧ i.visit_status = VisitStatus.confirmed ∧
      isPast i.booking_window_end now = true then
    { i with status := ItemStatus.expired }
  else i

/-- Shallow embedding of `cartSchema.methods.checkExpiredItems`: the
cart-side expiry sweep over all items of one cart.  It touches only the
cart document — the property's lock mirror is not updated here. -/
def Cart.checkExpiredItems (c : Cart) (now : Nat) : Cart :=
  { c with items := c.items.map (expireOne (c.settings.visit_window_days * msPerDay) now) }

/-- Shallow embedding of `SimpleCleanupService.cleanupExpiredItems`
(src/unnamed/part_000 lines 29-65), the hourly property-side sweeper: two
`Property.updateMany` passes that clear `cart_status.in_cart` and
`cart_status.buyer_id` — first for unconfirmed locks older than a
hard-coded 7 days, then for confirmed locks whose `booking_window_end`
has passed.  No cart document is touched.  The Mongo filter
`added_at < now - 7d` is `added_at + 7d < now` over the integers. -/
def simpleCleanupProperty (now : Nat) (p : Property) : Property :=
  let p1 :=
    if p.cart_status.in_cart = true ∧ p.cart_status.visit_confirmed = false ∧
        isPast (p.cart_status.added_at.map (fun a => a + 7 * msPerDay)) now = true then
      { p with cart_status :=
          { p.cart_status with in_cart := false, buyer_id := none } }
    else p
  if p1.cart_status.in_cart = true ∧ p1.cart_status.visit_confirmed = true ∧
      isPast p1.cart_status.booking_window_end now = true then
    { p1 with cart_status :=
        { p1.cart_status with in_cart := false, buyer_id := none } }
  else p1

/-- Modelled from the spec: `cart.canAddProperty()` is invoked by the
buyer controller's `addToCart` (src/controllers/buyerController.js line
88), but no `canAddProperty` method is defined on the cart schema
anywhere under src; the spec's capacity rule reads "Buyer's
active-reservation count must be `< max_properties`". -/
def Cart.canAddProperty (c : Cart) : Bool :=
  decide (activeCount c.items < c.settings.max_properties)

/-- Shallow embedding of `exports.addToCart`
(src/controllers/buyerController.js lines 51-154), the `reserve`
operation, run to completion in isolation (its internal read/write split
is modelled separately for the concurrency claim).  `findOne({_id, status:
'live', 'cart_status.in_cart': false})` is the availability test; then
the capacity check; then a cart push whose item carries schema defaults
`status='active'`, `visit_status='pending'` plus a `booking_window_end`
computed *at add time*; then a wholesale replacement of the property's
`cart_status` subdocument.  Notifications are elided. -/
def addToCart (buyerId pid now : Nat) (s : SysState) : SysState × Except Err Unit :=
  if s.prop.id = pid ∧ s.prop.status = ApprovalStatus.live ∧
      s.prop.cart_status.in_cart = false then
    if Cart.canAddProperty s.cart then
      let item : CartItem :=
        { property := pid, added_at := now, status := ItemStatus.active,
          visit_status := VisitStatus.pending, visit_confirmed_at := none,
          confirmed_by := none, booking_window_start := none,
          booking_window_end :=
            some (now + s.cart.settings.booking_window_days * msPerDay) }
      let cart' := { s.cart with items := s.cart.items ++ [item] }
      let prop' := { s.prop with cart_status :=
        { in_cart := true, buyer_id := some buyerId, added_at := some now,
          visit_confirmed := false, visit_confirmed_at := none,
          booking_window_start := none, booking_window_end := none } }
      ({ s with cart := cart', prop := prop' }, Except.ok ())
    else
      (s, Except.error Err.capacityExceeded)
  else
    (s, Except.error Err.propertyNotAvailable)

/-- Shallow embedding of `exports.removeFromCart`
(src/controllers/buyerController.js lines 157-214), the buyer-initiated
`release`: `findIndex` of the first active item for the property (404
`Item not found in cart` when absent), `splice` it out of the items
array, then `findByIdAndUpdate` clearing only `cart_status.in_cart` and
`cart_status.buyer_id`, then a `property_unlock` notification to the
seller.  The third component lists the emitted events. -/
def removeFromCart (pid : Nat) (s : SysState) :
    SysState × Except Err Unit × List Event :=
  match extractFirstActive pid s.cart.items with
  | none => (s, Except.error Err.itemNotFound, [])
  | some (_, rest) =>
    let cart' := { s.cart with items := rest }
    let prop' :=
      if s.prop.id = pid then
        { s.prop with cart_status :=
            { s.prop.cart_status with in_cart := false, buyer_id := none } }
      else s.prop
    ({ s with cart := cart', prop := prop' }, Except.ok (),
     if s.prop.id = pid then [Event.propertyUnlock s.prop.seller] else [])

/-- Field update applied to the matched item by the buyer controller's
`confirmVisit` on success (src/controllers/buyerController.js lines
252-255): confirmation fields and `booking_window_start = now`; note the
item's `booking_window_end` is *not* written here. -/
def confirmUpdBuyer (buyerId now : Nat) (i : CartItem) : CartItem :=
  { i with visit_status := VisitStatus.confirmed,
           visit_confirmed_at := some now,
           confirmed_by := some buyerId,
           booking_window_start := some now }

/-- Shallow embedding of `exports.confirmVisit`
(src/controllers/buyerController.js lines 217-309): locate the first
active item (404 when absent); if `now` is past `added_at +
visit_window_days` respond 400 `Visit window has expired` — with *no*
state change; otherwise apply `confirmUpdBuyer` to the item and mirror
`visit_confirmed`, `visit_confirmed_at`, `booking_window_start = now` and
`booking_window_end = cartItem.booking_window_end` (the value stored at
add time) onto the property. -/
def buyerConfirmVisit (buyerId pid now : Nat) (s : SysState) :
    SysState × Except Err Unit :=
  match updateFirstActive pid (confirmUpdBuyer buyerId now) s.cart.items with
  | none => (s, Except.error Err.itemNotFound)
  | some (item, items') =>
    if item.added_at + s.cart.settings.visit_window_days * msPerDay < now then
      (s, Except.error Err.visitWindowExpired)
    else
      let cart' := { s.cart with items := items' }
      let prop' :=
        if s.prop.id = pid then
          { s.prop with cart_status :=
              { s.prop.cart_status with
                  visit_confirmed := true, visit_confirmed_at := some now,
                  booking_window_start := some now,
                  booking_window_end := item.booking_window_end } }
        else s.prop
      ({ s with cart := cart', prop := prop' }, Except.ok ())

/-- Shallow embedding of `exports.confirmVisit`
(src/controllers/brokerController.js lines 180-273): locate the first
active item (404 when absent); 403 unless the broker is assigned to the
property; then — with *no* visit-window check and *no* check that the
visit is already confirmed — set the confirmation fields on the item and
the property mirror, and, when the confirming broker is not the
property's original adder, append a `seller` commission at rate
`sellerRule?.value || 2`.  `sellerRuleValue` is the rule provider's
lookup result. -/
def brokerConfirmVisit (brokerId pid now : Nat) (sellerRuleValue : Option Rat)
    (s : SysState) : SysState × Except Err Unit :=
  match updateFirstActive pid (confirmUpdBuyer brokerId now) s.cart.items with
  | none => (s, Except.error Err.itemNotFound)
  | some (_, items') =>
    if s.prop.id = pid ∧ s.prop.broker = some brokerId then
      let cart' := { s.cart with items := items' }
      let prop' := { s.prop with cart_status :=
        { s.prop.cart_status with
            visit_confirmed := true, visit_confirmed_at := some now,
            booking_window_start := some now } }
      let rate := jsOrO sellerRuleValue 2
      let commissions' :=
        if s.prop.added_by.user = brokerId then s.commissions
        else s.commissions ++
          [{ broker := brokerId, property := s.prop.id,
             property_price := s.prop.price, commission_type := "seller",
             rate := rate, amount := s.prop.price * rate / 100 }]
      ({ cart := cart', prop := prop', commissions := commissions' }, Except.ok ())
    else
      (s, Except.error Err.notAuthorized)

/-- Field update applied to the matched item by the broker router's
`POST /api/visits/:propertyId/confirm` (src/unnamed/part_001 lines
707-714): confirmation fields plus a hard-coded 60-day booking window
starting now. -/
def confirmUpdRoute (brokerId now : Nat) (i : CartItem) : CartItem :=
  { i with visit_status := VisitStatus.confirmed,
           visit_confirmed_at := some now,
           confirmed_by := some brokerId,
           booking_window_start := some now,
           booking_window_end := some (now + 60 * msPerDay) }

/-- Shallow embedding of the broker router's
`POST /api/visits/:propertyId/confirm` (src/unnamed/part_001 lines
649-763): `findOne({_id, broker})` gates on assignment; locate the first
active cart item; reject past a hard-coded 7-day visit window (no state
change); otherwise apply `confirmUpdRoute`, mirror the fields (including
`booking_window_end = now + 60d`) onto the property, and when
`added_by.user !== broker || added_by.role !== 'broker'` record a
`seller` commission through `calculateCommission` with the per-property
rates' JS-falsy fallbacks 1.5 / 2.5. -/
def routeConfirmVisit (brokerId pid now : Nat) (s : SysState) :
    SysState × Except Err Unit :=
  if s.prop.id = pid ∧ s.prop.broker = some brokerId then
    match updateFirstActive pid (confirmUpdRoute brokerId now) s.cart.items with
    | none => (s, Except.error Err.itemNotFound)
    | some (item, items') =>
      if item.added_at + 7 * msPerDay < now then
        (s, Except.error Err.visitWindowExpired)
      else
        let cart' := { s.cart with items := items' }
        let prop' := { s.prop with cart_status :=
          { s.prop.cart_status with
              visit_confirmed := true, visit_confirmed_at := some now,
              booking_window_start := some now,
              booking_window_end := some (now + 60 * msPerDay) } }
        let base : SysState := { cart := cart', prop := prop', commissions := s.commissions }
        if s.prop.added_by.user = brokerId ∧ s.prop.added_by.role = Role.broker then
          (base, Except.ok ())
        else
          match calculateCommission s.prop.price "seller"
              (jsOr s.prop.commission_adder_rate (3 / 2))
              (jsOr s.prop.commission_seller_rate (5 / 2)) with
          | Except.ok cc =>
            ({ base with commissions := s.commissions ++
                [{ broker := brokerId, property := s.prop.id,
                   property_price := s.prop.price, commission_type := "seller",
                   rate := cc.rate, amount := cc.amount }] },
             Except.ok ())
          | Except.error _ => (base, Except.error Err.invalidCommissionType)
  else
    (s, Except.error Err.notAuthorized)

/-- Denormalized-mirror invariant of the spec's data model:
`cart_lock.held` (`cart_status.in_cart`) is `true` iff exactly one active
reservation item references the property. -/
def lockItemInvariant (p : Property) (items : List CartItem) : Prop :=
  p.cart_status.in_cart = true ↔ countActiveFor p.id items = 1

instance (p : Property) (items : List CartItem) :
    Decidable (lockItemInvariant p items) := by
  unfold lockItemInvariant
  infer_instance

/-- One engine operation, for statements quantifying over every
transition: the buyer controller's reserve/release/confirm, the cart
model's add/remove/confirm, the two broker confirm surfaces and the two
sweeper passes. -/
inductive Op
  | reserve (buyerId pid now : Nat)
  | addItemModel (pid now : Nat)
  | removeCtrl (pid : Nat)
  | removeItemModel (pid : Nat)
  | confirmBuyer (buyerId pid now : Nat)
  | confirmModel (pid confirmedBy now : Nat)
  | confirmBroker (brokerId pid now : Nat) (sellerRuleValue : Option Rat)
  | confirmRoute (brokerId pid now : Nat)
  | sweepCart (now : Nat)
  | sweepProp (now : Nat)

/-- State transformer of one engine operation (the response value is
dropped; error paths leave the state unchanged by construction of each
embedded operation). -/
def applyOp (op : Op) (s : SysState) : SysState :=
  match op with
  | Op.reserve buyerId pid now => (addToCart buyerId pid now s).1
  | Op.addItemModel pid now => { s with cart := (s.cart.addItem pid now).1 }
  | Op.removeCtrl pid => (removeFromCart pid s).1
  | Op.removeItemModel pid => { s with cart := (s.cart.removeItem pid).1 }
  | Op.confirmBuyer buyerId pid now => (buyerConfirmVisit buyerId pid now s).1
  | Op.confirmModel pid confirmedBy now =>
      { s with cart := (s.cart.confirmVisitModel pid confirmedBy now).1 }
  | Op.confirmBroker brokerId pid now r => (brokerConfirmVisit brokerId pid now r s).1
  | Op.confirmRoute brokerId pid now => (routeConfirmVisit brokerId pid now s).1
  | Op.sweepCart now => { s with cart := s.cart.checkExpiredItems now }
  | Op.sweepProp now => { s with prop := simpleCleanupProperty now s.prop }

namespace Race

/-- Phase of one in-flight `addToCart` request in the two-request
interleaving model: not yet started, past the `findOne` availability read
(recording what it observed), or finished with the recorded outcome. -/
inductive Phase
  | start
  | checked (avail : Bool)
  | done (success : Bool)
deriving DecidableEq

/-- The two concurrent buyers of Scenario C. -/
inductive Who
  | A
  | B
deriving DecidableEq

/-- The two store interactions of one `addToCart` request
(src/controllers/buyerController.js): `check` is the
`Property.findOne({_id, status: 'live', 'cart_status.in_cart': false})`
read at lines 56-60, `commit` is the `property.save()` write of
`cart_status` at lines 106-112.  Nothing between them re-validates the
lock. -/
inductive Action
  | check
  | commit
deriving DecidableEq

/-- Shared store plus the two request phases. -/
structure RState where
  live : Bool
  in_cart : Bool
  buyer_id : Option Nat
  phaseA : Phase
  phaseB : Phase
deriving DecidableEq

def phaseOf (w : Who) (s : RState) : Phase :=
  match w with
  | Who.A => s.phaseA
  | Who.B => s.phaseB

def setPhase (w : Who) (p : Phase) (s : RState) : RState :=
  match w with
  | Who.A => { s with phaseA := p }
  | Who.B => { s with phaseB := p }

def buyerOf (w : Who) : Nat :=
  match w with
  | Who.A => 1
  | Who.B => 2

/-- Small-step semantics of the read/write split of `addToCart`: `check`
records whether the property was observed live and unlocked; `commit`
either performs the unconditional `property.save()` (setting the lock to
this buyer) when the earlier read said available, or returns the 404
`Property not available for cart` rejection when it did not. -/
def step (w : Who) (a : Action) (s : RState) : RState :=
  match a, phaseOf w s with
  | Action.check, Phase.start =>
      setPhase w (Phase.checked (s.live && !s.in_cart)) s
  | Action.commit, Phase.checked true =>
      { setPhase w (Phase.done true) s with
          in_cart := true, buyer_id := some (buyerOf w) }
  | Action.commit, Phase.checked false =>
      setPhase w (Phase.done false) s
  | _, _ => s

/-- Run a schedule (an interleaving of the two requests' store
interactions). -/
def run (sched : List (Who × Action)) (s : RState) : RState :=
  sched.foldl (fun st p => step p.1 p.2 st) s

end Race

/-- Helper equivalence: `isActiveFor` as a proposition. -/
theorem isActiveFor_iff (pid : Nat) (i : CartItem) :
    isActiveFor pid i = true ↔ i.property = pid ∧ i.status = ItemStatus.active := by
  simp [isActiveFor]

/-- The matched item of `updateFirstActive` is an active item for `pid`
drawn from the list. -/
theorem updateFirstActive_some_matched {pid : Nat} {f : CartItem → CartItem} :
    ∀ {items : List CartItem} {j : CartItem} {items' : List CartItem},
      updateFirstActive pid f items = some (j, items') →
      j ∈ items ∧ isActiveFor pid j = true := by
  intro items
  induction items with
  | nil => intro j items' h; simp [updateFirstActive] at h
  | cons i rest ih =>
    intro j items' h
    by_cases hm : isActiveFor pid i
    · simp [updateFirstActive, hm] at h
      obtain ⟨hj, _⟩ := h
      exact ⟨by simp [← hj], hj ▸ hm⟩
    · simp [updateFirstActive, hm] at h
      cases hrec : updateFirstActive pid f rest with
      | none => rw [hrec] at h; simp at h
      | some pr =>
        rw [hrec] at h
        obtain ⟨j', rest'⟩ := pr
        simp at h
        obtain ⟨hj, _⟩ := h
        obtain ⟨hmem, hact⟩ := ih (hj ▸ hrec)
        exact ⟨List.mem_cons_of_mem i hmem, hact⟩

/-- Non-active items survive `updateFirstActive` (only an active item is
rewritten). -/
theorem updateFirstActive_mem_preserve {pid : Nat} {f : CartItem → CartItem} :
    ∀ {items : List CartItem} {j : CartItem} {items' : List CartItem}
      {i : CartItem}, i ∈ items → ¬ i.status = ItemStatus.active →
      updateFirstActive pid f items = some (j, items') → i ∈ items' := by
  intro items
  induction items with
  | nil => intro j items' i hmem; simp at hmem
  | cons a rest ih =>
    intro j items' i hmem hna h
    by_cases hm : isActiveFor pid a
    · simp [updateFirstActive, hm] at h
      obtain ⟨_, hlist⟩ := h
      rcases List.mem_cons.mp hmem with hia | hir
      · exfalso
        apply hna
        have := (isActiveFor_iff pid a).mp hm
        rw [hia]
        exact this.2
      · rw [← hlist]
        exact List.mem_cons_of_mem _ hir
    · simp [updateFirstActive, hm] at h
      cases hrec : updateFirstActive pid f rest with
      | none => rw [hrec] at h; simp at h
      | some pr =>
        rw [hrec] at h
        obtain ⟨j', rest'⟩ := pr
        simp at h
        obtain ⟨hj, hlist⟩ := h
        rcases List.mem_cons.mp hmem with hia | hir
        · rw [← hlist, hia]; exact List.mem_cons_self a rest'
        · have := ih hir hna (by rw [hrec, hj])
          rw [← hlist]
          exact List.mem_cons_of_mem _ this

/-- Non-active items survive `extractFirstActive` (only an active item is
spliced out). -/
theorem extractFirstActive_mem_preserve {pid : Nat} :
    ∀ {items : List CartItem} {j : CartItem} {items' : List CartItem}
      {i : CartItem}, i ∈ items → ¬ i.status = ItemStatus.active →
      extractFirstActive pid items = some (j, items') → i ∈ items' := by
  intro items
  induction items with
  | nil => intro j items' i hmem; simp at hmem
  | cons a rest ih =>
    intro j items' i hmem hna h
    by_cases hm : isActiveFor pid a
    · simp [extractFirstActive, hm] at h
      obtain ⟨_, hlist⟩ := h
      rcases List.mem_cons.mp hmem with hia | hir
      · exfalso
        apply hna
        have := (isActiveFor_iff pid a).mp hm
        rw [hia]
        exact this.2
      · rw [← hlist]; exact hir
    · simp [extractFirstActive, hm] at h
      cases hrec : extractFirstActive pid rest with
      | none => rw [hrec] at h; simp at h
      | some pr =>
        rw [hrec] at h
        obtain ⟨j', rest'⟩ := pr
        simp at h
        obtain ⟨hj, hlist⟩ := h
        rcases List.mem_cons.mp hmem with hia | hir
        · rw [← hlist, hia]; exact List.mem_cons_self a rest'
        · have := ih hir hna (by rw [hrec, hj])
          rw [← hlist]
          exact List.mem_cons_of_mem _ this

deriving instance DecidableEq for Except

/-- Unfolding lemma: active count over a cons cell. -/
theorem countActiveFor_cons (pid : Nat) (a : CartItem) (rest : List CartItem) :
    countActiveFor pid (a :: rest) =
      (if isActiveFor pid a then 1 else 0) + countActiveFor pid rest := by
  by_cases hm : isActiveFor pid a
  · simp [countActiveFor, hm, Nat.add_comm]
  · simp [countActiveFor, hm]

/-- With no active item for `pid` present, `updateFirstActive` finds
nothing. -/
theorem updateFirstActive_none_of_count_zero {pid : Nat} {f : CartItem → CartItem} :
    ∀ {items : List CartItem}, countActiveFor pid items = 0 →
      updateFirstActive pid f items = none := by
  intro items
  induction items with
  | nil => intro _; rfl
  | cons a rest ih =>
    intro h
    rw [countActiveFor_cons] at h
    by_cases hm : isActiveFor pid a
    · simp [hm] at h
    · simp [hm] at h
      simp [updateFirstActive, hm, ih h]

/-- With no active item for `pid` present, `extractFirstActive` finds
nothing. -/
theorem extractFirstActive_none_of_count_zero {pid : Nat} :
    ∀ {items : List CartItem}, countActiveFor pid items = 0 →
      extractFirstActive pid items = none := by
  intro items
  induction items with
  | nil => intro _; rfl
  | cons a rest ih =>
    intro h
    rw [countActiveFor_cons] at h
    by_cases hm : isActiveFor pid a
    · simp [hm] at h
    · simp [hm] at h
      simp [extractFirstActive, hm, ih h]

/-- Splicing out the first active match lowers the active count by one. -/
theorem extractFirstActive_some_count {pid : Nat} :
    ∀ {items : List CartItem} {j : CartItem} {items' : List CartItem},
      extractFirstActive pid items = some (j, items') →
      countActiveFor pid items' + 1 = countActiveFor pid items := by
  intro items
  induction items with
  | nil => intro j items' h; simp [extractFirstActive] at h
  | cons a rest ih =>
    intro j items' h
    by_cases hm : isActiveFor pid a
    · simp [extractFirstActive, hm] at h
      obtain ⟨_, hlist⟩ := h
      rw [countActiveFor_cons, if_pos hm, ← hlist, Nat.add_comm]
    · simp [extractFirstActive, hm] at h
      cases hrec : extractFirstActive pid rest with
      | none => rw [hrec] at h; simp at h
      | some pr =>
        rw [hrec] at h
        obtain ⟨j', rest'⟩ := pr
        simp at h
        obtain ⟨hj, hlist⟩ := h
        have := ih (by rw [hrec, hj])
        rw [← hlist, countActiveFor_cons, if_neg hm, countActiveFor_cons, if_neg hm]
        simpa using this

/-- Rewriting the first active match changes the active count according
to whether the rewritten item is still an active match. -/
theorem updateFirstActive_some_count {pid : Nat} {f : CartItem → CartItem} :
    ∀ {items : List CartItem} {j : CartItem} {items' : List CartItem},
      updateFirstActive pid f items = some (j, items') →
      countActiveFor pid items' + 1 =
        countActiveFor pid items + (if isActiveFor pid (f j) then 1 else 0) := by
  intro items
  induction items with
  | nil => intro j items' h; simp [updateFirstActive] at h
  | cons a rest ih =>
    intro j items' h
    by_cases hm : isActiveFor pid a
    · simp [updateFirstActive, hm] at h
      obtain ⟨hj, hlist⟩ := h
      rw [← hlist, countActiveFor_cons, countActiveFor_cons, if_pos hm, ← hj]
      ring
    · simp [updateFirstActive, hm] at h
      cases hrec : updateFirstActive pid f rest with
      | none => rw [hrec] at h; simp at h
      | some pr =>
        rw [hrec] at h
        obtain ⟨j', rest'⟩ := pr
        simp at h
        obtain ⟨hj, hlist⟩ := h
        have := ih (by rw [hrec, hj])
        rw [← hlist, countActiveFor_cons, if_neg hm, countActiveFor_cons, if_neg hm]
        omega

/-- The cart-side expiry transition leaves non-active items untouched. -/
theorem expireOne_nonactive {w now : Nat} {i : CartItem}
    (h : ¬ i.status = ItemStatus.active) : expireOne w now i = i := by
  simp [expireOne, h]

/-- The rewritten first active match lands in the returned list. -/
theorem updateFirstActive_some_fmem {pid : Nat} {f : CartItem → CartItem} :
    ∀ {items : List CartItem} {j : CartItem} {items' : List CartItem},
      updateFirstActive pid f items = some (j, items') → f j ∈ items' := by
  intro items
  induction items with
  | nil => intro j items' h; simp [updateFirstActive] at h
  | cons a rest ih =>
    intro j items' h
    by_cases hm : isActiveFor pid a
    · simp [updateFirstActive, hm] at h
      obtain ⟨hj, hlist⟩ := h
      rw [← hlist, ← hj]
      exact List.mem_cons_self _ _
    · simp [updateFirstActive, hm] at h
      cases hrec : updateFirstActive pid f rest with
      | none => rw [hrec] at h; simp at h
      | some pr =>
        rw [hrec] at h
        obtain ⟨j', rest'⟩ := pr
        simp at h
        obtain ⟨hj, hlist⟩ := h
        have := ih (by rw [hrec, hj])
        rw [← hlist]
        exact List.mem_cons_of_mem _ this

/-- The first active match, and whether one exists, do not depend on the
update function applied to it. -/
theorem updateFirstActive_congr {pid : Nat} (f g : CartItem → CartItem) :
    ∀ {items : List CartItem} {j : CartItem} {items' : List CartItem},
      updateFirstActive pid f items = some (j, items') →
      ∃ items'', updateFirstActive pid g items = some (j, items'') := by
  intro items
  induction items with
  | nil => intro j items' h; simp [updateFirstActive] at h
  | cons a rest ih =>
    intro j items' h
    by_cases hm : isActiveFor pid a
    · simp [updateFirstActive, hm] at h
      obtain ⟨hj, _⟩ := h
      subst hj
      exact ⟨g a :: rest, by simp [updateFirstActive, hm]⟩
    · simp [updateFirstActive, hm] at h
      cases hrec : updateFirstActive pid f rest with
      | none => rw [hrec] at h; simp at h
      | some pr =>
        rw [hrec] at h
        obtain ⟨j', rest'⟩ := pr
        simp at h
        obtain ⟨hj, _⟩ := h
        obtain ⟨items'', hg⟩ := ih (by rw [hrec, hj])
        exact ⟨a :: items'', by simp [updateFirstActive, hm, hg]⟩

/-- Fixture: the empty lock mirror of a property not held in any cart. -/
def unlockedStatus : CartStatus :=
  { in_cart := false, buyer_id := none, added_at := none,
    visit_confirmed := false, visit_confirmed_at := none,
    booking_window_start := none, booking_window_end := none }

/-- Fixture: the lock mirror right after buyer `buyerId` reserved at
`addedAt` (as `addToCart` writes it). -/
def lockedStatus (buyerId addedAt : Nat) : CartStatus :=
  { in_cart := true, buyer_id := some buyerId, added_at := some addedAt,
    visit_confirmed := false, visit_confirmed_at := none,
    booking_window_start := none, booking_window_end := none }

/-- Fixture: the engine's fallback settings (5 / 7 / 60). -/
def demoSettings : CartSettings :=
  { max_properties := 5, visit_window_days := 7, booking_window_days := 60 }

/-- Fixture: a live ₹10,00,000 property listed by seller 8, with broker 9
assigned, carrying no per-property commission rates (schema default 0). -/
def demoProp : Property :=
  { id := 1, price := 1000000, status := ApprovalStatus.live, seller := 7,
    broker := some 9, added_by := { user := 8, role := Role.seller },
    cart_status := unlockedStatus,
    commission_adder_rate := 0, commission_seller_rate := 0 }

/-- Fixture: an active, pending reservation of property 1 taken at
`t = 0`. -/
def demoItem : CartItem :=
  { property := 1, added_at := 0, status := ItemStatus.active,
    visit_status := VisitStatus.pending, visit_confirmed_at := none,
    confirmed_by := none, booking_window_start := none,
    booking_window_end := none }

/-- Fixture: buyer 1 with an empty cart facing the unlocked demo
property. -/
def demoState : SysState :=
  { cart := { buyer := 1, items := [], settings := demoSettings },
    prop := demoProp, commissions := [] }

/-- Fixture: buyer 1 holding the demo property (one active pending
reservation taken at `t = 0`, lock mirror set accordingly). -/
def heldState : SysState :=
  { cart := { buyer := 1, items := [demoItem], settings := demoSettings },
    prop := { demoProp with cart_status := lockedStatus 1 0 },
    commissions := [] }

/-- C10: `calculateCommission` is additive over commission types: the
`adder_seller` result has rate `a + s` and amount `p * (a + s) / 100`,
equal to the sum of the `adder` amount `p * a / 100` and the `seller`
amount `p * s / 100`; any commission type outside the three known ones
throws `Invalid commission type`. -/
theorem c10_calculateCommission_additive (p a s : Rat) :
    calculateCommission p "adder_seller" a s =
      Except.ok ⟨a + s, p * (a + s) / 100⟩ ∧
    calculateCommission p "adder" a s = Except.ok ⟨a, p * a / 100⟩ ∧
    calculateCommission p "seller" a s = Except.ok ⟨s, p * s / 100⟩ ∧
    p * (a + s) / 100 = p * a / 100 + p * s / 100 ∧
    (∀ t : String, t ≠ "adder" → t ≠ "seller" → t ≠ "adder_seller" →
      calculateCommission p t a s = Except.error "Invalid commission type") := by
  refine ⟨by simp [calculateCommission], by simp [calculateCommission],
    by simp [calculateCommission], by ring, ?_⟩
  intro t h1 h2 h3
  simp [calculateCommission, h1, h2, h3]

/-- C10 witness: the hypotheses of the throwing clause hold at the
concrete type `"adder_plus"` and the clause follows from the theorem. -/
theorem c10_calculateCommission_additive_witness :
    ("adder_plus" : String) ≠ "adder" ∧
    calculateCommission 1000000 "adder_plus" 1 2 =
      Except.error "Invalid commission type" :=
  ⟨by decide,
   (c10_calculateCommission_additive 1000000 1 2).2.2.2.2 "adder_plus"
     (by decide) (by decide) (by decide)⟩

/-- Fixture: the shared store before Scenario C — a live, unlocked
property and two reserve requests not yet started. -/
def raceInit : Race.RState :=
  { live := true, in_cart := false, buyer_id := none,
    phaseA := Race.Phase.start, phaseB := Race.Phase.start }

/-- C1 counterexample: `addToCart` performs its availability check
(`findOne`) and its lock write (`property.save()`) as two separate store
operations with no conditional guard on the write, so the interleaving in
which both requests read before either writes lets BOTH buyers succeed on
the same unlocked live property — the claimed "exactly one succeeds" and
the claimed atomic conditional update both fail.  The final lock
records only the second writer (a lost update). -/
theorem c1_counterexample :
    (Race.run [(Race.Who.A, Race.Action.check), (Race.Who.B, Race.Action.check),
        (Race.Who.A, Race.Action.commit), (Race.Who.B, Race.Action.commit)]
      raceInit).phaseA = Race.Phase.done true ∧
    (Race.run [(Race.Who.A, Race.Action.check), (Race.Who.B, Race.Action.check),
        (Race.Who.A, Race.Action.commit), (Race.Who.B, Race.Action.commit)]
      raceInit).phaseB = Race.Phase.done true ∧
    (Race.run [(Race.Who.A, Race.Action.check), (Race.Who.B, Race.Action.check),
        (Race.Who.A, Race.Action.commit), (Race.Who.B, Race.Action.commit)]
      raceInit).buyer_id = some 2 := by
  decide

/-- C1 (amended): when the two reserve requests happen to be serialized —
one request's read and write both complete before the other request
starts — exactly one succeeds and the other is rejected by the
availability check (the 404 `Property not available for cart`, the
code's `AlreadyHeld` surface); but the check-then-set is a separate read
followed by an unconditional write, not an atomic conditional update, so
the overlapping interleaving of `c1_counterexample` admits two
winners. -/
theorem c1_serialized_exclusive (s : Race.RState) (hl : s.live = true)
    (hc : s.in_cart = false) (ha : s.phaseA = Race.Phase.start)
    (hb : s.phaseB = Race.Phase.start) :
    (Race.run [(Race.Who.A, Race.Action.check), (Race.Who.A, Race.Action.commit),
        (Race.Who.B, Race.Action.check), (Race.Who.B, Race.Action.commit)]
      s).phaseA = Race.Phase.done true ∧
    (Race.run [(Race.Who.A, Race.Action.check), (Race.Who.A, Race.Action.commit),
        (Race.Who.B, Race.Action.check), (Race.Who.B, Race.Action.commit)]
      s).phaseB = Race.Phase.done false ∧
    (Race.run [(Race.Who.A, Race.Action.check), (Race.Who.A, Race.Action.commit),
        (Race.Who.B, Race.Action.check), (Race.Who.B, Race.Action.commit)]
      s).buyer_id = some 1 := by
  obtain ⟨l, c, bid, pa, pb⟩ := s
  simp only at hl hc ha hb
  subst hl; subst hc; subst ha; subst hb
  refine ⟨?_, ?_, ?_⟩ <;> rfl

/-- C1 witness: the serialized theorem applied to the concrete initial
store `raceInit`. -/
theorem c1_serialized_exclusive_witness :
    raceInit.live = true ∧ raceInit.in_cart = false ∧
    (Race.run [(Race.Who.A, Race.Action.check), (Race.Who.A, Race.Action.commit),
        (Race.Who.B, Race.Action.check), (Race.Who.B, Race.Action.commit)]
      raceInit).phaseA = Race.Phase.done true :=
  ⟨rfl, rfl, (c1_serialized_exclusive raceInit rfl rfl rfl rfl).1⟩

/-- C8 counterexample: the broker router's confirm endpoint on the held
₹10,00,000 property (no rule, per-property rates at their schema default
0, broker 9 not the adder) records a `seller` commission of rate 2.5 and
amount ₹25,000 — not the claimed rate-2 / ₹20,000 fallback. -/
theorem c8_counterexample :
    ((routeConfirmVisit 9 1 (3 * msPerDay) heldState).1.commissions.map
        (fun c => (c.commission_type, c.rate, c.amount))) = [("seller", 5 / 2, 25000)] ∧
    ¬ ((5 : Rat) / 2 = 2) ∧ ¬ ((25000 : Rat) = 20000) := by
  refine ⟨?_, by norm_num, by norm_num⟩
  simp [routeConfirmVisit, heldState, demoProp, demoItem, demoSettings,
    lockedStatus, updateFirstActive, isActiveFor, confirmUpdRoute, jsOr,
    calculateCommission, msPerDay]
  norm_num

/-- C8 (amended): the recorded `seller` commission always has amount
`price * rate / 100`, but the fallback rates differ by path: the broker
router falls back to `calculateCommission`-style per-property defaults
`adder 1.5 / seller 2.5` when the property carries no rates (so a
₹10,00,000 property with no rule yields ₹25,000 at 2.5%), while the
rule-provider path of `brokerController.confirmVisit` falls back to
`seller_rate = 2` (yielding ₹20,000). -/
theorem c8_commission_fallback (s : SysState) (brokerId pid now : Nat)
    (item : CartItem) (items' : List CartItem)
    (hauth : s.prop.id = pid ∧ s.prop.broker = some brokerId)
    (hupd : updateFirstActive pid (confirmUpdRoute brokerId now) s.cart.items =
      some (item, items'))
    (hwin : ¬ item.added_at + 7 * msPerDay < now)
    (hadder : ¬ (s.prop.added_by.user = brokerId ∧ s.prop.added_by.role = Role.broker))
    (hzero : s.prop.commission_seller_rate = 0)
    (item2 : CartItem) (items2' : List CartItem)
    (hupd2 : updateFirstActive pid (confirmUpdBuyer brokerId now) s.cart.items =
      some (item2, items2'))
    (hadder2 : ¬ s.prop.added_by.user = brokerId) :
    (routeConfirmVisit brokerId pid now s).1.commissions = s.commissions ++
      [{ broker := brokerId, property := s.prop.id, property_price := s.prop.price,
         commission_type := "seller", rate := 5 / 2,
         amount := s.prop.price * (5 / 2) / 100 }] ∧
    (brokerConfirmVisit brokerId pid now none s).1.commissions = s.commissions ++
      [{ broker := brokerId, property := s.prop.id, property_price := s.prop.price,
         commission_type := "seller", rate := 2,
         amount := s.prop.price * 2 / 100 }] := by
  constructor
  · simp [routeConfirmVisit, hauth.1, hauth.2, hupd, hwin, hadder, hzero,
      calculateCommission, jsOr]
  · simp [brokerConfirmVisit, hauth.1, hauth.2, hupd2, hadder2, jsOrO, jsOr]

/-- C8 witness: the amended fallback theorem applied to the held demo
state (broker 9, not the adder, no rule, schema-default rates). -/
theorem c8_commission_fallback_witness :
    (heldState.prop.id = 1 ∧ heldState.prop.broker = some 9) ∧
    (routeConfirmVisit 9 1 (3 * msPerDay) heldState).1.commissions =
      [{ broker := 9, property := heldState.prop.id,
         property_price := heldState.prop.price, commission_type := "seller",
         rate := 5 / 2, amount := heldState.prop.price * (5 / 2) / 100 }] :=
  ⟨⟨rfl, rfl⟩,
   (c8_commission_fallback heldState 9 1 (3 * msPerDay)
      demoItem [confirmUpdRoute 9 (3 * msPerDay) demoItem]
      ⟨rfl, rfl⟩
      (by simp [heldState, demoItem, updateFirstActive, isActiveFor])
      (by decide)
      (by decide)
      rfl
      demoItem [confirmUpdBuyer 9 (3 * msPerDay) demoItem]
      (by simp [heldState, demoItem, updateFirstActive, isActiveFor])
      (by decide)).1⟩

/-- Fixture: the demo reservation item retargeted at property `p`. -/
def capItem (p : Nat) : CartItem :=
  { demoItem with property := p }

/-- Fixture: buyer 1 holding five active reservations (properties 11-15),
i.e. a cart exactly at the default capacity, facing the unlocked demo
property. -/
def fullState : SysState :=
  { cart :=
      { buyer := 1,
        items := [capItem 11, capItem 12, capItem 13, capItem 14, capItem 15],
        settings := demoSettings },
    prop := demoProp, commissions := [] }

/-- C2: a buyer whose active-reservation count has reached
`max_properties` gets a capacity rejection from a further reserve call
with no state change, and below the limit the call is never rejected for
capacity — on both cited surfaces: the buyer controller's `addToCart`
(through the spec-modelled `canAddProperty`) and the cart model's
`addItem` (whose `activeItems.length >= max_properties` check is embedded
directly from source). -/
theorem c2_capacity_bound (s : SysState) (c : Cart) (buyerId pid pid2 now now2 : Nat) :
    (s.prop.id = pid → s.prop.status = ApprovalStatus.live →
      s.prop.cart_status.in_cart = false →
      activeCount s.cart.items = s.cart.settings.max_properties →
      addToCart buyerId pid now s = (s, Except.error Err.capacityExceeded)) ∧
    (activeCount s.cart.items < s.cart.settings.max_properties →
      (addToCart buyerId pid now s).2 ≠ Except.error Err.capacityExceeded) ∧
    (c.isPropertyInCart pid2 = false →
      c.settings.max_properties ≤ activeCount c.items →
      c.addItem pid2 now2 = (c, Except.error Err.capacityExceeded)) ∧
    (activeCount c.items < c.settings.max_properties →
      (c.addItem pid2 now2).2 ≠ Except.error Err.capacityExceeded) := by
  refine ⟨?_, ?_, ?_, ?_⟩
  · intro h1 h2 h3 hcap
    simp [addToCart, h1, h2, h3, Cart.canAddProperty, hcap]
  · intro hlt
    by_cases hav : s.prop.id = pid ∧ s.prop.status = ApprovalStatus.live ∧
        s.prop.cart_status.in_cart = false
    · simp [addToCart, hav.1, hav.2.1, hav.2.2, Cart.canAddProperty, hlt]
    · simp [addToCart, hav]
  · intro hdup hcap
    simp [Cart.addItem, hdup, hcap]
  · intro hlt
    by_cases hdup : c.isPropertyInCart pid2
    · simp [Cart.addItem, hdup]
    · simp [Cart.addItem, hdup, Nat.not_le_of_lt hlt]

/-- C2 witness: the at-capacity clause applied to the concrete
five-reservation cart `fullState` (Scenario D), and the below-limit
clause applied to the empty cart `demoState`. -/
theorem c2_capacity_bound_witness :
    activeCount fullState.cart.items = fullState.cart.settings.max_properties ∧
    addToCart 1 1 (8 * msPerDay) fullState =
      (fullState, Except.error Err.capacityExceeded) ∧
    activeCount demoState.cart.items < demoState.cart.settings.max_properties ∧
    (addToCart 1 1 0 demoState).2 ≠ Except.error Err.capacityExceeded :=
  ⟨by decide,
   (c2_capacity_bound fullState fullState.cart 1 1 1 (8 * msPerDay) 0).1
     rfl rfl rfl (by decide),
   by decide,
   (c2_capacity_bound demoState demoState.cart 1 1 1 0 0).2.1 (by decide)⟩

/-- C3 counterexample: on the held reservation taken at `t = 0` with a
7-day window, the buyer controller's `confirmVisit` at `t = 8` days
fails with the window-expired rejection but performs NO expiry release —
the state is returned unchanged: the reservation item is still `active`
(not `expired`) and the property's lock is still held. -/
theorem c3_counterexample :
    buyerConfirmVisit 1 1 (8 * msPerDay) heldState =
      (heldState, Except.error Err.visitWindowExpired) ∧
    heldState.cart.items.map CartItem.status = [ItemStatus.active] ∧
    heldState.prop.cart_status.in_cart = true := by
  refine ⟨?_, by decide, by decide⟩
  simp [buyerConfirmVisit, heldState, demoItem, demoSettings, demoProp,
    lockedStatus, updateFirstActive, isActiveFor, msPerDay]

/-- C3 (amended): past the visit window an unconfirmed reservation can
never be confirmed, but the expiry side effect is partial: the buyer
controller's `confirmVisit` merely rejects with `Visit window has
expired` and changes nothing, while the cart model's `confirmVisit`
marks the reservation item `expired` (both `status` and `visit_status`)
and saves — yet neither path clears the property's cart lock. -/
theorem c3_expiry_on_confirm (s : SysState) (buyerId pid now : Nat)
    (item : CartItem) (items' : List CartItem)
    (hupd : updateFirstActive pid (confirmUpdBuyer buyerId now) s.cart.items =
      some (item, items'))
    (hwin : item.added_at + s.cart.settings.visit_window_days * msPerDay < now)
    (c : Cart) (cb now2 : Nat) (item2 : CartItem) (items2 : List CartItem)
    (hupd2 : updateFirstActive pid (fun i => i) c.items = some (item2, items2))
    (hnc : ¬ item2.visit_status = VisitStatus.confirmed)
    (hwin2 : item2.added_at + c.settings.visit_window_days * msPerDay < now2) :
    buyerConfirmVisit buyerId pid now s = (s, Except.error Err.visitWindowExpired) ∧
    (∃ itemsE, updateFirstActive pid expireUpd c.items = some (item2, itemsE) ∧
      c.confirmVisitModel pid cb now2 =
        ({ c with items := itemsE }, Except.error Err.visitWindowExpired) ∧
      expireUpd item2 ∈ itemsE ∧
      (expireUpd item2).status = ItemStatus.expired ∧
      (expireUpd item2).visit_status = VisitStatus.expired) ∧
    (applyOp (Op.confirmModel pid cb now2)
      { cart := c, prop := s.prop, commissions := s.commissions }).prop = s.prop := by
  refine ⟨?_, ?_, rfl⟩
  · simp [buyerConfirmVisit, hupd, hwin]
  · obtain ⟨itemsE, hE⟩ := updateFirstActive_congr (fun i => i) expireUpd hupd2
    refine ⟨itemsE, hE, ?_, updateFirstActive_some_fmem hE, rfl, rfl⟩
    simp [Cart.confirmVisitModel, hupd2, hnc, hwin2, hE]

/-- C3 witness: the amended theorem applied to the held reservation at
`t = 8` days (both controller and cart-model paths at the same elapsed
window). -/
theorem c3_expiry_on_confirm_witness :
    demoItem.added_at + heldState.cart.settings.visit_window_days * msPerDay <
      8 * msPerDay ∧
    buyerConfirmVisit 1 1 (8 * msPerDay) heldState =
      (heldState, Except.error Err.visitWindowExpired) :=
  ⟨by decide,
   (c3_expiry_on_confirm heldState 1 1 (8 * msPerDay) demoItem
      [confirmUpdBuyer 1 (8 * msPerDay) demoItem]
      (by simp [heldState, demoItem, updateFirstActive, isActiveFor])
      (by decide)
      heldState.cart 1 (8 * msPerDay) demoItem [demoItem]
      (by simp [heldState, demoItem, updateFirstActive, isActiveFor])
      (by decide)
      (by decide)).1⟩

/-- C4 counterexample: reserving the demo property at `t = 0` already
stores `booking_window_end = 60 days` on the reservation item (the claim
says it is never set at cart-add time), and confirming the visit at
`t = 3 days` leaves that add-time value in place on both the item and
the property mirror — not the claimed `t + 60 days`. -/
theorem c4_counterexample :
    ((addToCart 1 1 0 demoState).1.cart.items.map CartItem.booking_window_end) =
      [some (60 * msPerDay)] ∧
    ((buyerConfirmVisit 1 1 (3 * msPerDay)
        (addToCart 1 1 0 demoState).1).1.cart.items.map CartItem.booking_window_end) =
      [some (60 * msPerDay)] ∧
    (buyerConfirmVisit 1 1 (3 * msPerDay)
        (addToCart 1 1 0 demoState).1).1.prop.cart_status.booking_window_end =
      some (60 * msPerDay) ∧
    ¬ 60 * msPerDay = 3 * msPerDay + 60 * msPerDay := by
  decide

/-- C4 (amended): a successful buyer-controller `confirmVisit` at time
`t` sets `visit_status = confirmed`, `visit_confirmed_at = t` and
`booking_window_start = t`, mirroring them onto the property — but
`booking_window_end` is set at cart-add time (`addToCart` stores
`added_at + booking_window_days` on the new item) and the confirmation
merely copies that unchanged add-time value onto the property mirror. -/
theorem c4_booking_window_fields (s s2 : SysState)
    (buyerId pid now buyerId2 pid2 t : Nat)
    (item : CartItem) (items' : List CartItem)
    (h1 : s.prop.id = pid) (h2 : s.prop.status = ApprovalStatus.live)
    (h3 : s.prop.cart_status.in_cart = false)
    (hcap : Cart.canAddProperty s.cart = true)
    (hupd : updateFirstActive pid2 (confirmUpdBuyer buyerId2 t) s2.cart.items =
      some (item, items'))
    (hwin : ¬ item.added_at + s2.cart.settings.visit_window_days * msPerDay < t)
    (hpid : s2.prop.id = pid2) :
    (addToCart buyerId pid now s).1.cart.items = s.cart.items ++
      [{ property := pid, added_at := now, status := ItemStatus.active,
         visit_status := VisitStatus.pending, visit_confirmed_at := none,
         confirmed_by := none, booking_window_start := none,
         booking_window_end :=
           some (now + s.cart.settings.booking_window_days * msPerDay) }] ∧
    (buyerConfirmVisit buyerId2 pid2 t s2).2 = Except.ok () ∧
    (buyerConfirmVisit buyerId2 pid2 t s2).1.cart.items = items' ∧
    confirmUpdBuyer buyerId2 t item ∈ items' ∧
    (confirmUpdBuyer buyerId2 t item).visit_status = VisitStatus.confirmed ∧
    (confirmUpdBuyer buyerId2 t item).visit_confirmed_at = some t ∧
    (confirmUpdBuyer buyerId2 t item).booking_window_start = some t ∧
    (confirmUpdBuyer buyerId2 t item).booking_window_end = item.booking_window_end ∧
    (buyerConfirmVisit buyerId2 pid2 t s2).1.prop.cart_status.visit_confirmed = true ∧
    (buyerConfirmVisit buyerId2 pid2 t s2).1.prop.cart_status.booking_window_start =
      some t ∧
    (buyerConfirmVisit buyerId2 pid2 t s2).1.prop.cart_status.booking_window_end =
      item.booking_window_end := by
  refine ⟨?_, ?_, ?_, updateFirstActive_some_fmem hupd, rfl, rfl, rfl, rfl, ?_, ?_, ?_⟩
  · simp [addToCart, h1, h2, h3, hcap]
  · simp [buyerConfirmVisit, hupd, hwin]
  · simp [buyerConfirmVisit, hupd, hwin]
  · simp [buyerConfirmVisit, hupd, hwin, hpid]
  · simp [buyerConfirmVisit, hupd, hwin, hpid]
  · simp [buyerConfirmVisit, hupd, hwin, hpid]

/-- C4 witness: the amended theorem applied to reserving the demo
property at `t = 0` and confirming at `t = 3` days. -/
theorem c4_booking_window_fields_witness :
    Cart.canAddProperty demoState.cart = true ∧
    (addToCart 1 1 0 demoState).1.cart.items = demoState.cart.items ++
      [{ property := 1, added_at := 0, status := ItemStatus.active,
         visit_status := VisitStatus.pending, visit_confirmed_at := none,
         confirmed_by := none, booking_window_start := none,
         booking_window_end :=
           some (0 + demoState.cart.settings.booking_window_days * msPerDay) }] :=
  ⟨by decide,
   (c4_booking_window_fields demoState heldState 1 1 0 1 1 (3 * msPerDay)
      demoItem [confirmUpdBuyer 1 (3 * msPerDay) demoItem]
      rfl rfl rfl (by decide)
      (by simp [heldState, demoItem, updateFirstActive, isActiveFor])
      (by decide) rfl).1⟩

/-- C5 counterexample: Scenario A's sweep breaks the mirror invariant
instead of preserving it — on the held reservation taken at `t = 0`, the
property-side sweeper at `t = 8` days clears `cart_status.in_cart`
without touching the reservation item, leaving `held = false` while
exactly one active reservation still references the property. -/
theorem c5_counterexample :
    lockItemInvariant heldState.prop heldState.cart.items ∧
    ¬ lockItemInvariant (simpleCleanupProperty (8 * msPerDay) heldState.prop)
        heldState.cart.items ∧
    (heldState.cart.items.map CartItem.status) = [ItemStatus.active] := by
  refine ⟨?_, ?_, by decide⟩ <;> decide

/-- C5 (amended): the sweep is split across two independent passes that
each update only one representation: the property-side sweeper clears
the lock of an unconfirmed 8-day-old reservation while the item is still
`active` (so the mirror and the item disagree after it runs), and the
cart-side `checkExpiredItems` marks the item `expired` without touching
the lock; Scenario A's end state (`item expired`, `held = false`) holds
only after BOTH passes have run. -/
theorem c5_sweeper_two_passes (p : Property) (c : Cart) (i : CartItem) (a now : Nat)
    (hin : p.cart_status.in_cart = true)
    (hnc : p.cart_status.visit_confirmed = false)
    (hadd : p.cart_status.added_at = some a)
    (helapsed : a + 7 * msPerDay < now)
    (hitems : c.items = [i]) (hip : i.property = p.id)
    (hia : i.status = ItemStatus.active) (hiv : i.visit_status = VisitStatus.pending)
    (hiadd : i.added_at = a) (hvwd : c.settings.visit_window_days = 7) :
    (simpleCleanupProperty now p).cart_status.in_cart = false ∧
    ¬ lockItemInvariant (simpleCleanupProperty now p) c.items ∧
    ((c.checkExpiredItems now).items.map CartItem.status) = [ItemStatus.expired] ∧
    lockItemInvariant (simpleCleanupProperty now p) (c.checkExpiredItems now).items := by
  have hclean : (simpleCleanupProperty now p).cart_status.in_cart = false := by
    simp [simpleCleanupProperty, hin, hnc, hadd, isPast, helapsed]
  have hid : (simpleCleanupProperty now p).id = p.id := by
    simp [simpleCleanupProperty, hin, hnc, hadd, isPast, helapsed]
  refine ⟨hclean, ?_, ?_, ?_⟩
  · intro hinv
    rw [lockItemInvariant, hclean, hid, hitems] at hinv
    simp [countActiveFor, isActiveFor, hip, hia] at hinv
  · simp [Cart.checkExpiredItems, hitems, expireOne, hia, hiv, hiadd, hvwd, helapsed]
  · rw [lockItemInvariant, hclean, hid]
    simp [Cart.checkExpiredItems, hitems, expireOne, hia, hiv, hiadd, hvwd, helapsed,
      countActiveFor, isActiveFor]

/-- C5 witness: the amended theorem applied to the held reservation at
`t = 8` days. -/
theorem c5_sweeper_two_passes_witness :
    heldState.prop.cart_status.in_cart = true ∧
    (0 : Nat) + 7 * msPerDay < 8 * msPerDay ∧
    ¬ lockItemInvariant (simpleCleanupProperty (8 * msPerDay) heldState.prop)
        heldState.cart.items :=
  ⟨rfl, by decide,
   (c5_sweeper_two_passes heldState.prop heldState.cart demoItem 0 (8 * msPerDay)
      rfl rfl rfl (by decide) rfl rfl rfl rfl rfl rfl).2.1⟩

/-- C6 counterexample: releasing the held reservation twice through
`removeFromCart` — the first call succeeds, the second is rejected with
the 404 `Item not found in cart`, i.e. an error rather than the claimed
no-op success. -/
theorem c6_counterexample :
    (removeFromCart 1 heldState).2.1 = Except.ok () ∧
    (removeFromCart 1 (removeFromCart 1 heldState).1).2.1 =
      Except.error Err.itemNotFound := by
  decide

/-- C6 (amended): releasing the same reservation twice produces the same
end state as releasing it once and emits no duplicate `property_unlock`
event — the second call changes nothing and notifies nobody — but it is
a `not found` error (`removeFromCart` responds 404, `removeItem` throws),
not a silent no-op; this holds on both cited release paths provided at
most one active reservation for the property exists. -/
theorem c6_release_idempotent_state (s : SysState) (pid : Nat) (c : Cart) (pid2 : Nat)
    (huniq : countActiveFor pid s.cart.items ≤ 1)
    (huniq2 : countActiveFor pid2 c.items ≤ 1) :
    removeFromCart pid (removeFromCart pid s).1 =
      ((removeFromCart pid s).1, Except.error Err.itemNotFound, []) ∧
    Cart.removeItem (Cart.removeItem c pid2).1 pid2 =
      ((Cart.removeItem c pid2).1, Except.error Err.itemNotFound) := by
  constructor
  · cases hex : extractFirstActive pid s.cart.items with
    | none =>
      simp [removeFromCart, hex]
    | some pr =>
      obtain ⟨j, rest⟩ := pr
      have hcnt := extractFirstActive_some_count hex
      have hrest : countActiveFor pid rest = 0 := by omega
      have hnone := @extractFirstActive_none_of_count_zero pid rest hrest
      simp [removeFromCart, hex, hnone]
  · cases hup : updateFirstActive pid2 (fun i => { i with status := ItemStatus.removed }) c.items with
    | none =>
      simp [Cart.removeItem, hup]
    | some pr =>
      obtain ⟨j, items'⟩ := pr
      have hcnt := updateFirstActive_some_count hup
      have hfj : isActiveFor pid2 { j with status := ItemStatus.removed } = false := by
        simp [isActiveFor]
      rw [hfj] at hcnt
      simp at hcnt
      have hz : countActiveFor pid2 items' = 0 := by omega
      have hnone := @updateFirstActive_none_of_count_zero pid2
        (fun i => { i with status := ItemStatus.removed }) items' hz
      simp [Cart.removeItem, hup, hnone]

/-- C6 witness: the amended theorem applied to the held single-item
reservation state. -/
theorem c6_release_idempotent_state_witness :
    countActiveFor 1 heldState.cart.items ≤ 1 ∧
    removeFromCart 1 (removeFromCart 1 heldState).1 =
      ((removeFromCart 1 heldState).1, Except.error Err.itemNotFound, []) :=
  ⟨by decide,
   (c6_release_idempotent_state heldState 1 heldState.cart 1
      (by decide) (by decide)).1⟩

/-- C7 counterexample: two successive `brokerController.confirmVisit`
calls by broker 9 (not the adder) on the same held reservation both
succeed — the path never checks `visit_status != confirmed` — and each
appends a `seller` commission, so one reservation accumulates two seller
commissions. -/
theorem c7_counterexample :
    ((brokerConfirmVisit 9 1 (4 * msPerDay) none
        (brokerConfirmVisit 9 1 (3 * msPerDay) none heldState).1).1.commissions.map
      (fun cm => (cm.commission_type, cm.property, cm.broker))) =
      [("seller", 1, 9), ("seller", 1, 9)] ∧
    (brokerConfirmVisit 9 1 (3 * msPerDay) none heldState).2 = Except.ok () ∧
    (brokerConfirmVisit 9 1 (4 * msPerDay) none
        (brokerConfirmVisit 9 1 (3 * msPerDay) none heldState).1).2 = Except.ok () := by
  decide

/-- C7 (amended): the cart model's `confirmVisit` does require
`visit_status != confirmed` — a repeated confirmation through it fails
with `Visit already confirmed` and changes nothing, and the method
itself never writes a commission — but `brokerController.confirmVisit`
performs no such check and appends a fresh `seller`-type commission on
every successful call by a non-adder broker, so at-most-once does not
hold on that path. -/
theorem c7_commission_per_call (c : Cart) (pid cb now : Nat)
    (item : CartItem) (items0 : List CartItem)
    (hupd : updateFirstActive pid (fun i => i) c.items = some (item, items0))
    (hconf : item.visit_status = VisitStatus.confirmed)
    (s : SysState) (brokerId pid2 now2 : Nat) (r : Option Rat)
    (item2 : CartItem) (items2 : List CartItem)
    (hupd2 : updateFirstActive pid2 (confirmUpdBuyer brokerId now2) s.cart.items =
      some (item2, items2))
    (hauth : s.prop.id = pid2 ∧ s.prop.broker = some brokerId)
    (hadder : ¬ s.prop.added_by.user = brokerId) :
    c.confirmVisitModel pid cb now = (c, Except.error Err.visitAlreadyConfirmed) ∧
    (brokerConfirmVisit brokerId pid2 now2 r s).1.commissions = s.commissions ++
      [{ broker := brokerId, property := s.prop.id, property_price := s.prop.price,
         commission_type := "seller", rate := jsOrO r 2,
         amount := s.prop.price * jsOrO r 2 / 100 }] := by
  constructor
  · simp [Cart.confirmVisitModel, hupd, hconf]
  · simp [brokerConfirmVisit, hupd2, hauth.1, hauth.2, hadder]

/-- C7 witness: the amended theorem applied to the reservation already
confirmed by the first broker call (model path) and to the held
reservation (broker-controller path). -/
theorem c7_commission_per_call_witness :
    heldState.prop.broker = some 9 ∧
    (brokerConfirmVisit 9 1 (3 * msPerDay) none heldState).1.commissions =
      heldState.commissions ++
      [{ broker := 9, property := heldState.prop.id,
         property_price := heldState.prop.price, commission_type := "seller",
         rate := jsOrO none 2,
         amount := heldState.prop.price * jsOrO none 2 / 100 }] :=
  ⟨rfl,
   (c7_commission_per_call
      { buyer := 1, items := [confirmUpdBuyer 1 0 demoItem], settings := demoSettings }
      1 1 (3 * msPerDay) (confirmUpdBuyer 1 0 demoItem) [confirmUpdBuyer 1 0 demoItem]
      (by simp [confirmUpdBuyer, demoItem, updateFirstActive, isActiveFor])
      rfl
      heldState 9 1 (3 * msPerDay) none
      demoItem [confirmUpdBuyer 9 (3 * msPerDay) demoItem]
      (by simp [heldState, demoItem, updateFirstActive, isActiveFor])
      ⟨rfl, rfl⟩ (by decide)).2⟩

/-- Fixture: a terminal (removed) reservation item and a state holding
only it. -/
def doneItem : CartItem :=
  { demoItem with status := ItemStatus.removed, visit_status := VisitStatus.cancelled }

def doneState : SysState :=
  { cart := { buyer := 1, items := [doneItem], settings := demoSettings },
    prop := demoProp, commissions := [] }

/-- C9 counterexample: a reservation whose 7-day visit window has elapsed
(reserved at `t = 0`, call at `t = 8` days) is confirmed by
`brokerController.confirmVisit` — which checks no window — and stays
`active` with `visit_status = confirmed`, so from an elapsed reservation
a non-expired, still-active state is reachable, contradicting the claim
that only expired-class terminal states are. -/
theorem c9_counterexample :
    demoItem.added_at + heldState.cart.settings.visit_window_days * msPerDay <
      8 * msPerDay ∧
    ((applyOp (Op.confirmBroker 9 1 (8 * msPerDay) none) heldState).cart.items.map
      (fun i => (i.status, i.visit_status))) =
      [(ItemStatus.active, VisitStatus.confirmed)] := by
  decide

/-- C9 (amended): every non-active reservation status is terminal — no
engine operation (reserve, any of the confirm surfaces, either release
path, or either sweeper pass) modifies a non-active item — and through
the cart model's `confirmVisit` an elapsed reservation can never be
confirmed (the call always fails); but `brokerController.confirmVisit`
checks no window, so an elapsed reservation still marked active can be
re-confirmed and remain active (see the counterexample). -/
theorem c9_terminal_states (op : Op) (s : SysState) (i : CartItem)
    (hmem : i ∈ s.cart.items) (hna : ¬ i.status = ItemStatus.active)
    (c : Cart) (pid cb now : Nat)
    (hall : ∀ j ∈ c.items, isActiveFor pid j = true →
      j.added_at + c.settings.visit_window_days * msPerDay < now) :
    i ∈ (applyOp op s).cart.items ∧
    (c.confirmVisitModel pid cb now).2 ≠ Except.ok () := by
  constructor
  · cases op with
    | reserve buyerId pid' now' =>
      by_cases hav : s.prop.id = pid' ∧ s.prop.status = ApprovalStatus.live ∧
          s.prop.cart_status.in_cart = false
      · by_cases hcap : Cart.canAddProperty s.cart = true
        · simp [applyOp, addToCart, hav, hcap, hmem]
        · simp [applyOp, addToCart, hav, hcap, hmem]
      · simp [applyOp, addToCart, hav, hmem]
    | addItemModel pid' now' =>
      by_cases hdup : s.cart.isPropertyInCart pid' = true
      · simp [applyOp, Cart.addItem, hdup, hmem]
      · by_cases hcap : s.cart.settings.max_properties ≤ activeCount s.cart.items
        · simp [applyOp, Cart.addItem, hdup, hcap, hmem]
        · simp [applyOp, Cart.addItem, hdup, hcap, hmem]
    | removeCtrl pid' =>
      cases hex : extractFirstActive pid' s.cart.items with
      | none => simpa [applyOp, removeFromCart, hex] using hmem
      | some pr =>
        obtain ⟨j, rest⟩ := pr
        have := extractFirstActive_mem_preserve hmem hna hex
        simpa [applyOp, removeFromCart, hex] using this
    | removeItemModel pid' =>
      cases hup : updateFirstActive pid'
          (fun x => { x with status := ItemStatus.removed }) s.cart.items with
      | none => simpa [applyOp, Cart.removeItem, hup] using hmem
      | some pr =>
        obtain ⟨j, items'⟩ := pr
        have := updateFirstActive_mem_preserve hmem hna hup
        simpa [applyOp, Cart.removeItem, hup] using this
    | confirmBuyer buyerId pid' now' =>
      cases hup : updateFirstActive pid' (confirmUpdBuyer buyerId now') s.cart.items with
      | none => simpa [applyOp, buyerConfirmVisit, hup] using hmem
      | some pr =>
        obtain ⟨j, items'⟩ := pr
        by_cases hel : j.added_at + s.cart.settings.visit_window_days * msPerDay < now'
        · simpa [applyOp, buyerConfirmVisit, hup, hel] using hmem
        · have := updateFirstActive_mem_preserve hmem hna hup
          simpa [applyOp, buyerConfirmVisit, hup, hel] using this
    | confirmModel pid' cb' now' =>
      cases hup : updateFirstActive pid' (fun x => x) s.cart.items with
      | none => simpa [applyOp, Cart.confirmVisitModel, hup] using hmem
      | some pr =>
        obtain ⟨j, items0⟩ := pr
        by_cases hconf : j.visit_status = VisitStatus.confirmed
        · simpa [applyOp, Cart.confirmVisitModel, hup, hconf] using hmem
        · by_cases hel : j.added_at + s.cart.settings.visit_window_days * msPerDay < now'
          · cases hE : updateFirstActive pid' expireUpd s.cart.items with
            | none => simpa [applyOp, Cart.confirmVisitModel, hup, hconf, hel, hE] using hmem
            | some prE =>
              obtain ⟨jE, itemsE⟩ := prE
              have := updateFirstActive_mem_preserve hmem hna hE
              simpa [applyOp, Cart.confirmVisitModel, hup, hconf, hel, hE] using this
          · cases hC : updateFirstActive pid'
                (confirmUpdModel cb' now' s.cart.settings.booking_window_days)
                s.cart.items with
            | none => simpa [applyOp, Cart.confirmVisitModel, hup, hconf, hel, hC] using hmem
            | some prC =>
              obtain ⟨jC, itemsC⟩ := prC
              have := updateFirstActive_mem_preserve hmem hna hC
              simpa [applyOp, Cart.confirmVisitModel, hup, hconf, hel, hC] using this
    | confirmBroker brokerId pid' now' r =>
      cases hup : updateFirstActive pid' (confirmUpdBuyer brokerId now') s.cart.items with
      | none => simpa [applyOp, brokerConfirmVisit, hup] using hmem
      | some pr =>
        obtain ⟨j, items'⟩ := pr
        by_cases hauth : s.prop.id = pid' ∧ s.prop.broker = some brokerId
        · have := updateFirstActive_mem_preserve hmem hna hup
          simpa [applyOp, brokerConfirmVisit, hup, hauth] using this
        · simpa [applyOp, brokerConfirmVisit, hup, hauth] using hmem
    | confirmRoute brokerId pid' now' =>
      by_cases hauth : s.prop.id = pid' ∧ s.prop.broker = some brokerId
      · cases hup : updateFirstActive pid' (confirmUpdRoute brokerId now') s.cart.items with
        | none => simpa [applyOp, routeConfirmVisit, hauth, hup] using hmem
        | some pr =>
          obtain ⟨j, items'⟩ := pr
          by_cases hel : j.added_at + 7 * msPerDay < now'
          · simpa [applyOp, routeConfirmVisit, hauth, hup, hel] using hmem
          · have := updateFirstActive_mem_preserve hmem hna hup
            by_cases hrole : s.prop.added_by.user = brokerId ∧
                s.prop.added_by.role = Role.broker
            · simpa [applyOp, routeConfirmVisit, hauth, hup, hel, hrole] using this
            · simpa [applyOp, routeConfirmVisit, hauth, hup, hel, hrole,
                calculateCommission] using this
      · simpa [applyOp, routeConfirmVisit, hauth] using hmem
    | sweepCart now' =>
      have : i ∈ s.cart.items.map
          (expireOne (s.cart.settings.visit_window_days * msPerDay) now') :=
        List.mem_map.mpr ⟨i, hmem, expireOne_nonactive hna⟩
      simpa [applyOp, Cart.checkExpiredItems] using this
    | sweepProp now' => simpa [applyOp] using hmem
  · cases hup : updateFirstActive pid (fun x => x) c.items with
    | none => simp [Cart.confirmVisitModel, hup]
    | some pr =>
      obtain ⟨item, items0⟩ := pr
      obtain ⟨hmem', hact⟩ := updateFirstActive_some_matched hup
      have helap := hall item hmem' hact
      by_cases hconf : item.visit_status = VisitStatus.confirmed
      · simp [Cart.confirmVisitModel, hup, hconf]
      · obtain ⟨itemsE, hE⟩ := updateFirstActive_congr (fun x => x) expireUpd hup
        simp [Cart.confirmVisitModel, hup, hconf, helap, hE]

/-- C9 witness: the terminality clause applied to the removed reservation
of `doneState` under the cart-side sweep, and the window-monotonicity
clause applied to the held reservation at `t = 8` days. -/
theorem c9_terminal_states_witness :
    doneItem ∈ doneState.cart.items ∧
    ¬ doneItem.status = ItemStatus.active ∧
    doneItem ∈ (applyOp (Op.sweepCart (8 * msPerDay)) doneState).cart.items ∧
    (heldState.cart.confirmVisitModel 1 1 (8 * msPerDay)).2 ≠ Except.ok () :=
  ⟨by decide, by decide,
   (c9_terminal_states (Op.sweepCart (8 * msPerDay)) doneState doneItem
      (by decide) (by decide) heldState.cart 1 1 (8 * msPerDay) (by decide)).1,
   (c9_terminal_states (Op.sweepCart (8 * msPerDay)) doneState doneItem
      (by decide) (by decide) heldState.cart 1 1 (8 * msPerDay) (by decide)).2⟩

end Propbandhu
